import Mathlib

/-!
Verification development for the LinkedAI repository.

This file shallowly embeds the parts of the repository that the
specification's testable properties talk about:

* `src/linkedAI/agents/data_models.py` — the message and argument models
  (pydantic `BaseModel` classes become Lean structures; a required pydantic
  field becomes a required structure field, validation of a decoded JSON
  payload becomes an `Except`-valued function);
* `src/linkedAI/agents/chat_agent.py` — `ChatAgent.chat`, the multi-round
  tool-calling orchestration loop, embedded as a state-passing function over
  an abstract environment `Env` holding the language-model backend and the
  collaborator calls (which may fail: `Except`);
* `src/linkedAI/agents/query_agent.py` — `QueryAgent.query_vectorstore`;
* `src/linkedAI/agents/resume_agent.py` — `ResumeAgent.run_resume_match`
  and `ResumeAgent.run_resume_tweak`;
* `src/linkedAI/gradio.py` — `LinkedAIGradioApp.reset_conversation`.

A Python generator (`yield`) is embedded by accumulating the yielded
fragments, in order, in an explicit trace; model round-trips are recorded
in the same trace so that the order of yields relative to model calls is
observable.  Exceptions raised and caught inside the source are embedded
as `Except`/`Option` values threaded explicitly.
-/

namespace LinkedAI

/-- Job posting record. Modelled from the spec: the class `JobCard` is
imported from `linkedAI.scraper.data_models` but its definition is not
present in the source tree (only its constructors and callers are); spec
section 3 gives its shape: title, company, location, description,
canonical link. -/
structure JobCard where
  title : String
  company : String
  location : String
  description : String
  link : String
deriving Repr, DecidableEq, Inhabited

/-- `SearchResults` from `agents/data_models.py`: list of jobs returned by
querying the DB. -/
structure SearchResults where
  jobs : List JobCard
deriving Repr, DecidableEq, Inhabited

/-- Python truthiness of a pydantic `BaseModel` instance: `BaseModel`
defines neither `bool` nor `len`, so an instance is always truthy.  Used
to embed `not resume_match_args.jobs` faithfully. -/
def SearchResults.pyTruthy (_ : SearchResults) : Bool := true

/-- `QueryArgs` from `agents/data_models.py`: both fields required. -/
structure QueryArgs where
  query : String
  n_results : Int
deriving Repr, DecidableEq

/-- `ResumeMatchArgs` from `agents/data_models.py`: the field `jobs` is a
required pydantic field (no default, not `Optional`). -/
structure ResumeMatchArgs where
  jobs : SearchResults
deriving Repr, DecidableEq

/-- `ResumeMatchResult` from `agents/data_models.py`. -/
structure ResumeMatchResult where
  best_match_id : Int
  reasoning : String
deriving Repr, DecidableEq

/-- `ResumeTweakArgs` from `agents/data_models.py`: single required field
`job_description`. -/
structure ResumeTweakArgs where
  job_description : String
deriving Repr, DecidableEq

/-- `ResumeTweakResult` from `agents/data_models.py`. -/
structure ResumeTweakResult where
  suggestions : String
deriving Repr, DecidableEq

/-- Stand-in for pydantic `model_dump_json` (library code, external to the
repository): a concrete injective rendering of the value; the
orchestration-level claims depend only on which message carries it, never
on the rendered text. -/
def SearchResults.model_dump_json (r : SearchResults) : String :=
  toString (repr r)

/-- Stand-in for pydantic `model_dump_json` on `ResumeMatchResult`. -/
def ResumeMatchResult.model_dump_json (r : ResumeMatchResult) : String :=
  toString (repr r)

/-- Stand-in for pydantic `model_dump_json` on `ResumeTweakResult`. -/
def ResumeTweakResult.model_dump_json (r : ResumeTweakResult) : String :=
  toString (repr r)

/-- Decoded JSON argument payload of a tool call, as far as the three tool
argument schemas inspect it: each field is present or absent.  (pydantic
v2 ignores extra keys by default, so keys outside the schemas are not
modelled.) -/
structure Payload where
  query : Option String := none
  n_results : Option Int := none
  jobs : Option SearchResults := none
  job_description : Option String := none
deriving Repr, DecidableEq, Inhabited

/-- Stand-in for the text of a pydantic `ValidationError` for a missing
required field (library-generated text; only its identity matters). -/
def validationErrorText (model field : String) : String :=
  "1 validation error for " ++ model ++ ": " ++ field ++ " Field required"

/-- Stand-in for the text of a `json.JSONDecodeError` raised by
`json.loads` on a malformed arguments string. -/
def jsonDecodeErrorText : String := "Expecting value: line 1 column 1 (char 0)"

/-- Embeds `json.loads(tool_call.function.arguments)` followed by
`QueryArgs(**args)`: `none` models a malformed arguments string
(`json.loads` raises), a missing required field raises `ValidationError`. -/
def QueryArgs.validate : Option Payload → Except String QueryArgs
  | none => .error jsonDecodeErrorText
  | some p =>
    match p.query, p.n_results with
    | some q, some n => .ok ⟨q, n⟩
    | some _, none => .error (validationErrorText "QueryArgs" "n_results")
    | none, _ => .error (validationErrorText "QueryArgs" "query")

/-- Embeds `json.loads` followed by `ResumeMatchArgs(**args)`: `jobs` is a
required field, so a payload without it fails validation. -/
def ResumeMatchArgs.validate : Option Payload → Except String ResumeMatchArgs
  | none => .error jsonDecodeErrorText
  | some p =>
    match p.jobs with
    | some j => .ok ⟨j⟩
    | none => .error (validationErrorText "ResumeMatchArgs" "jobs")

/-- Embeds `json.loads` followed by `ResumeTweakArgs(**args)`. -/
def ResumeTweakArgs.validate : Option Payload → Except String ResumeTweakArgs
  | none => .error jsonDecodeErrorText
  | some p =>
    match p.job_description with
    | some d => .ok ⟨d⟩
    | none =>
      .error (validationErrorText "ResumeTweakArgs" "job_description")

/-- The `function` member of an OpenAI tool call object
(`tool_call.function.name`, `tool_call.function.arguments`); the
arguments string is carried in decoded form (`none` = malformed JSON). -/
structure ToolFunction where
  name : String
  arguments : Option Payload
deriving Repr, DecidableEq, Inhabited

/-- An OpenAI tool call object (`tool_call.id`, `tool_call.function`). -/
structure ToolCall where
  id : String
  function : ToolFunction
deriving Repr, DecidableEq, Inhabited

/-- Typed messages of `agents/data_models.py`
(`SystemMessage` / `UserMessage` / `AssistantMessage` / `ToolMessage`),
with the fields each class declares.  `assistant` stores
`tool_calls = None` as `none` and a nonempty list as `some`, as
`ChatAgent.chat` does when appending. -/
inductive Msg where
  | system (content : String)
  | user (content : String)
  | assistant (content : String) (tool_calls : Option (List ToolCall))
  | tool (content : String) (name : String) (tool_call_id : String)
deriving Repr, DecidableEq, Inhabited

/-- Whether a message has role `tool`. -/
def Msg.isTool : Msg → Bool
  | .tool _ _ _ => true
  | _ => false

/-- Stand-in for `config.CHAT_AGENT_SYSTEM_PROMPT` (a fixed prompt string
from `config.py`; the claims depend only on its identity, so its text is
abbreviated here). -/
def CHAT_AGENT_SYSTEM_PROMPT : String :=
  "You are a helpful chatbot which helps a user find and apply for relevant jobs."

/-- `ChatHistory()` from `agents/data_models.py`: the default `messages`
list holds exactly the system message. -/
def ChatHistory.init : List Msg := [Msg.system CHAT_AGENT_SYSTEM_PROMPT]

/-- One observable event of a `chat` turn: a yielded text fragment, or a
model round-trip (`client.chat.completions.create`) with or without tool
schemas offered. -/
inductive Event where
  | yield (s : String)
  | modelCallWithTools
  | modelCallNoTools
deriving Repr, DecidableEq

/-- Whether an event is a model round-trip. -/
def Event.isModelCall : Event → Bool
  | .yield _ => false
  | .modelCallWithTools => true
  | .modelCallNoTools => true

/-- The reply of one model round-trip: `choice.message.content` (with
Python `None` collapsed to `""`, exactly as `content or ""` and the
truthiness tests in the source treat it) and `choice.message.tool_calls`
(`[]` models `None`). -/
structure ModelReply where
  content : String
  tool_calls : List ToolCall

/-- Abstract environment of one `chat` turn: the language-model backend
(a deterministic function of the history sent, once with tool schemas and
once without for forced finalization) and the three collaborator calls,
each of which may raise (`Except.error` carries `str(e)`).
`runResumeMatch` and `runResumeTweak` abstract the corresponding
`ResumeAgent` methods, whose internals are embedded separately below. -/
structure Env where
  modelWithTools : List Msg → ModelReply
  modelNoTools : List Msg → String
  queryVectorstore : QueryArgs → Except String SearchResults
  runResumeMatch : ResumeMatchArgs → Except String ResumeMatchResult
  runResumeTweak : ResumeTweakArgs → Except String ResumeTweakResult

/-- The mutable state of one `chat` turn: the agent's `chat_history.messages`,
the `ChatSession` fields that the loop reads or writes
(`last_search_results`, `tool_results`), and the trace of observable
events (yields and model calls) in chronological order. -/
structure ChatState where
  history : List Msg
  last_search_results : Option SearchResults
  tool_results : List (String × String)
  trace : List Event
deriving Repr, DecidableEq, Inhabited

/-- Record a yielded fragment. -/
def ChatState.pyYield (st : ChatState) (s : String) : ChatState :=
  { st with trace := st.trace ++ [Event.yield s] }

/-- `self.chat_history.append_message(...)`. -/
def ChatState.append_message (st : ChatState) (m : Msg) : ChatState :=
  { st with history := st.history ++ [m] }

/-- `session.tool_results[key] = value` (values stored in serialized
form; this mapping is written but never read by `chat`). -/
def ChatState.setToolResult (st : ChatState) (key value : String) :
    ChatState :=
  { st with tool_results := st.tool_results ++ [(key, value)] }

/-- `ChatAgent._format_job_results`.  `not search_results` is always false
(pydantic instances are truthy); `not search_results.jobs` is list
truthiness. -/
def format_job_results (search_results : SearchResults) : String :=
  if search_results.jobs.isEmpty then
    "No jobs found matching your criteria."
  else
    let header :=
      "Found " ++ toString search_results.jobs.length ++ " relevant jobs:\n\n"
    search_results.jobs.enum.foldl
      (fun acc p =>
        let i := p.1 + 1
        let job := p.2
        let description :=
          if job.description.length > 200 then
            (job.description.take 200) ++ "..."
          else job.description
        acc ++ "**" ++ toString i ++ ". " ++ job.title ++ "** at **" ++
          job.company ++ "**\n" ++ job.location ++ "\n" ++
          "[Apply Here](" ++ job.link ++ ")\n" ++ description ++ "\n\n")
      header

/-- `ChatAgent._format_resume_match_result` (the `not match_result` guard is
always false for a pydantic instance). -/
def format_resume_match_result (match_result : ResumeMatchResult) : String :=
  "**Best Match Analysis:**\n\n" ++
    "**Best Job Match:** Job #" ++ toString match_result.best_match_id ++
    "\n\n" ++ "**Reasoning:**\n" ++ match_result.reasoning ++ "\n\n"

/-- `ChatAgent._format_resume_tweaks`. -/
def format_resume_tweaks (tweak_result : ResumeTweakResult) : String :=
  "**Resume Optimization Suggestions:**\n\n" ++ tweak_result.suggestions ++
    "\n\n"

/-- The `if not hasattr(resume_match_args, "jobs") or not resume_match_args.jobs:`
block of the `match_job_to_resume` branches (chat_agent.py lines 295–305 and
99–108): substitute the previous search results into the argument object,
or signal `none` for the continue/raise path when there are none.  `hasattr`
is `true` (`jobs` is a declared field) and a pydantic instance is always
truthy, so the guard never fires and the arguments pass through unchanged. -/
def resolveJobsDefault (last_search_results : Option SearchResults)
    (resume_match_args : ResumeMatchArgs) : Option ResumeMatchArgs :=
  let hasattr_jobs : Bool := true
  if !hasattr_jobs || !resume_match_args.jobs.pyTruthy then
    match last_search_results with
    | some prior => some { resume_match_args with jobs := prior }
    | none => none
  else some resume_match_args

/-- One iteration of the `for tool_call in tool_calls` dispatch inside
`ChatAgent.chat` (chat_agent.py lines 248–374), transcribed branch by
branch.  Note the dispatch handles exactly the three known tool names and
has no `else` branch: a tool call with any other name falls through with
no yield and no appended message. -/
def processToolCall (env : Env) (st : ChatState) (tool_call : ToolCall) :
    ChatState :=
  let tool_name := tool_call.function.name
  if tool_name = "search_jobs" then
    let st := st.pyYield "Searching for jobs...\n"
    match QueryArgs.validate tool_call.function.arguments with
    | .ok query_args =>
      match env.queryVectorstore query_args with
      | .ok result =>
        let st := { st with last_search_results := some result }
        let st := st.setToolResult "last_search" result.model_dump_json
        let st := st.append_message
          (.tool result.model_dump_json tool_name tool_call.id)
        st.pyYield (format_job_results result)
      | .error e =>
        let st := st.pyYield ("Error searching jobs: " ++ e ++ "\n")
        st.append_message (.tool ("Error: " ++ e) tool_name tool_call.id)
    | .error e =>
      let st := st.pyYield ("Error searching jobs: " ++ e ++ "\n")
      st.append_message (.tool ("Error: " ++ e) tool_name tool_call.id)
  else if tool_name = "match_job_to_resume" then
    let st := st.pyYield "Analyzing your resume against the jobs...\n"
    match ResumeMatchArgs.validate tool_call.function.arguments with
    | .ok resume_match_args =>
      match resolveJobsDefault st.last_search_results resume_match_args with
      | none =>
        -- `yield "No jobs available for resume matching\n"` then `continue`:
        -- no tool message is appended on this (unreachable) path
        st.pyYield "No jobs available for resume matching\n"
      | some resume_match_args =>
        match env.runResumeMatch resume_match_args with
        | .ok result =>
          let st := st.setToolResult "last_match" result.model_dump_json
          let st := st.append_message
            (.tool result.model_dump_json tool_name tool_call.id)
          st.pyYield (format_resume_match_result result)
        | .error e =>
          let st := st.pyYield ("Error analyzing resume: " ++ e ++ "\n")
          st.append_message (.tool ("Error: " ++ e) tool_name tool_call.id)
    | .error e =>
      let st := st.pyYield ("Error analyzing resume: " ++ e ++ "\n")
      st.append_message (.tool ("Error: " ++ e) tool_name tool_call.id)
  else if tool_name = "suggest_resume_tweaks" then
    let st := st.pyYield "Generating resume optimization suggestions...\n"
    match ResumeTweakArgs.validate tool_call.function.arguments with
    | .ok resume_tweak_args =>
      match env.runResumeTweak resume_tweak_args with
      | .ok result =>
        let st := st.setToolResult "last_tweaks" result.model_dump_json
        let st := st.append_message
          (.tool result.model_dump_json tool_name tool_call.id)
        st.pyYield (format_resume_tweaks result)
      | .error e =>
        let st := st.pyYield ("Error generating suggestions: " ++ e ++ "\n")
        st.append_message (.tool ("Error: " ++ e) tool_name tool_call.id)
    | .error e =>
      let st := st.pyYield ("Error generating suggestions: " ++ e ++ "\n")
      st.append_message (.tool ("Error: " ++ e) tool_name tool_call.id)
  else
    st

/-- The `for tool_call in tool_calls` loop of one round of `chat`. -/
def processRound (env : Env) (st : ChatState) (tool_calls : List ToolCall) :
    ChatState :=
  tool_calls.foldl (processToolCall env) st

/-- The `while session.iterations < session.max_iterations` loop of
`ChatAgent.chat`, with `fuel = max_iterations - iterations` remaining
passes.  The returned flag is `true` exactly when the loop executed the
early `return` (a reply with no tool calls), which skips finalization. -/
def chatLoop (env : Env) : Nat → ChatState → ChatState × Bool
  | 0, st => (st, false)
  | fuel + 1, st =>
    let st := { st with trace := st.trace ++ [Event.modelCallWithTools] }
    let reply := env.modelWithTools st.history
    let tool_calls := reply.tool_calls
    let st := st.append_message
      (.assistant reply.content
        (if tool_calls.isEmpty then none else some tool_calls))
    if tool_calls.isEmpty then
      (if reply.content ≠ "" then st.pyYield reply.content else st, true)
    else
      chatLoop env fuel (processRound env st tool_calls)

/-- The state of a turn right after `chat` has appended the user message
to history and created the session (chat_agent.py lines 208–213). -/
def initialState (history0 : List Msg) (user_text : String) : ChatState :=
  { history := history0 ++ [Msg.user user_text]
    last_search_results := none
    tool_results := []
    trace := [] }

/-- The block after the `while` loop of `ChatAgent.chat` (chat_agent.py
lines 376–391): when the loop returned early (flag `true`) nothing more
happens; otherwise `session.iterations >= session.max_iterations` holds
and the forced finalization call with no tools is made. -/
def chatFinalize (env : Env) (res : ChatState × Bool) : ChatState :=
  match res with
  | (st, true) => st
  | (st, false) =>
    let st := st.pyYield "Finalizing response...\n"
    let st := { st with trace := st.trace ++ [Event.modelCallNoTools] }
    let final_content := env.modelNoTools st.history
    if final_content ≠ "" then
      (st.append_message (.assistant final_content none)).pyYield
        final_content
    else st

/-- `ChatAgent.chat` (chat_agent.py lines 198–392): append the user
message, yield the fixed progress marker, run the bounded loop, and — when
the loop exits without an early return — perform the forced no-tools
finalization call. -/
def chat (env : Env) (max_iterations : Nat) (history0 : List Msg)
    (user_text : String) : ChatState :=
  chatFinalize env
    (chatLoop env max_iterations
      ((initialState history0 user_text).pyYield
        "Let me help you with that...\n\n"))

/-- The fragments yielded by a turn, in order. -/
def ChatState.fragments (st : ChatState) : List String :=
  st.trace.filterMap fun e =>
    match e with
    | .yield s => some s
    | _ => none

/-- The metadata record stored per job in the chroma collection
(`scraper/vectorize.py` stores exactly the keys title, link, location,
company; the document text is the description). -/
structure ChromaMetadata where
  title : String
  link : String
  location : String
  company : String
deriving Repr, DecidableEq, Inhabited

/-- The dictionary returned by `collection.query(...)` with
`include=["documents", "metadatas"]`: one inner list per query embedding
(the source passes a single embedding, so chroma returns outer lists of
length one whose single element holds the `n_results` hits, nearest
first). -/
structure ChromaQueryResult where
  documents : List (List String)
  metadatas : List (List ChromaMetadata)
deriving Repr, DecidableEq, Inhabited

/-- `QueryAgent.query_vectorstore` (query_agent.py lines 25–57), given the
the chroma query response (the embedding call and the nearest-neighbour
lookup are external).  The source loop is
`for i in range(len(results["documents"]))` — the bound is the length of
the OUTER list — and each pass builds
`JobCard(description=results["documents"][0][i], **results["metadatas"][0][i])`.
`none` models an uncaught IndexError from the subscripts. -/
def query_vectorstore (results : ChromaQueryResult) : Option SearchResults :=
  ((List.range results.documents.length).mapM fun i => do
    let docs0 ← results.documents.get? 0
    let doc ← docs0.get? i
    let metas0 ← results.metadatas.get? 0
    let meta ← metas0.get? i
    pure { title := meta.title, company := meta.company,
           location := meta.location, description := doc,
           link := meta.link : JobCard }).map SearchResults.mk

/-- `ResumeAgent.run_resume_match` (resume_agent.py lines 91–128), given
the outcome of `client.beta.chat.completions.parse`:
`Except.error` models the API call raising (the `except` clause only
logs, after which the unbound `response` raises NameError), and the `ok`
payload is `response.choices[0].message.parsed`, which is `None` when the
backend result is null or unparseable. -/
def run_resume_match
    (parseOutcome : Except String (Option ResumeMatchResult))
    (resume_match_args : ResumeMatchArgs) : Except String ResumeMatchResult :=
  -- prompt construction uses `resume_match_args.jobs.model_dump_json` and
  -- cannot fail; its text is irrelevant to the result
  let _prompt := resume_match_args.jobs.model_dump_json
  match parseOutcome with
  | .error _ => .error "NameError: name response is not defined"
  | .ok parsed =>
    match parsed with
    | none => .ok { best_match_id := 0, reasoning := "" }
    | some result => .ok result

/-- Python attribute access on a `ResumeTweakArgs` instance: the pydantic
model declares exactly the field `job_description`, so any other
attribute name raises AttributeError. -/
def ResumeTweakArgs.pyGetattr (a : ResumeTweakArgs) (attr : String) :
    Except String String :=
  if attr = "job_description" then .ok a.job_description
  else
    .error ("AttributeError: ResumeTweakArgs object has no attribute " ++
      attr)

/-- `ResumeAgent.run_resume_tweak` (resume_agent.py lines 130–158).  The
prompt construction accesses `resume_tweak_args.job.description`, i.e.
attribute `job`, before the API call is made; the `ok` payload of
`apiOutcome` is `response.choices[0].message.content` (possibly `None`). -/
def run_resume_tweak (apiOutcome : Except String (Option String))
    (resume_tweak_args : ResumeTweakArgs) : Except String ResumeTweakResult := do
  let _job ← resume_tweak_args.pyGetattr "job"
  match apiOutcome with
  | .error _ => .error "NameError: name response is not defined"
  | .ok content =>
    -- suggestions = response.choices[0].message.content or ""
    .ok { suggestions := content.getD "" }

/-- The result value returned by `ChatAgent._execute_tool_call`, one of
the three collaborator result shapes. -/
inductive ToolResult where
  | search (r : SearchResults)
  | matched (r : ResumeMatchResult)
  | tweaked (r : ResumeTweakResult)
deriving Repr, DecidableEq

/-- `model_dump_json` on whichever result a tool produced. -/
def ToolResult.model_dump_json : ToolResult → String
  | .search r => r.model_dump_json
  | .matched r => r.model_dump_json
  | .tweaked r => r.model_dump_json

/-- `ChatAgent._execute_tool_call` (chat_agent.py lines 80–120):
`json.loads` runs first, then the name dispatch; every raised exception
(decode error, validation error, collaborator error, `InvalidToolError`)
propagates to the caller as `Except.error`. -/
def execute_tool_call (env : Env) (tool_call : ToolCall) (st : ChatState) :
    Except String (ToolResult × ChatState) :=
  match tool_call.function.arguments with
  | none => .error jsonDecodeErrorText
  | some args =>
    let tool_name := tool_call.function.name
    if tool_name = "search_jobs" then
      match QueryArgs.validate (some args) with
      | .error e => .error e
      | .ok query_args =>
        match env.queryVectorstore query_args with
        | .error e => .error e
        | .ok result =>
          let st := { st with last_search_results := some result }
          let st := st.setToolResult "last_search" result.model_dump_json
          .ok (.search result, st)
    else if tool_name = "match_job_to_resume" then
      match ResumeMatchArgs.validate (some args) with
      | .error e => .error e
      | .ok resume_match_args =>
        match resolveJobsDefault st.last_search_results resume_match_args with
        | none =>
          -- `raise InvalidToolError("No jobs provided for resume matching")`,
          -- on the (unreachable) no-prior-result path of the guard
          .error "No jobs provided for resume matching"
        | some resume_match_args =>
          match env.runResumeMatch resume_match_args with
          | .error e => .error e
          | .ok result =>
            let st := st.setToolResult "last_match" result.model_dump_json
            .ok (.matched result, st)
    else if tool_name = "suggest_resume_tweaks" then
      match ResumeTweakArgs.validate (some args) with
      | .error e => .error e
      | .ok resume_tweak_args =>
        match env.runResumeTweak resume_tweak_args with
        | .error e => .error e
        | .ok result =>
          let st := st.setToolResult "last_tweaks" result.model_dump_json
          .ok (.tweaked result, st)
    else .error ("Unknown tool: " ++ tool_name)

/-- `ChatAgent._process_all_tool_calls` (chat_agent.py lines 122–153):
every call is tried; an exception from `_execute_tool_call` is caught and
recorded as an `Error:`-content tool message, so each tool call yields
exactly one appended tool message and one entry (`some`/`none`) in the
results list. -/
def process_all_tool_calls (env : Env) (tool_calls : List ToolCall)
    (st : ChatState) : List (Option ToolResult) × ChatState :=
  tool_calls.foldl
    (fun acc tool_call =>
      let results := acc.1
      let st := acc.2
      match execute_tool_call env tool_call st with
      | .ok (result, st) =>
        let st := st.append_message
          (.tool result.model_dump_json tool_call.function.name tool_call.id)
        (results ++ [some result], st)
      | .error e =>
        let st := st.append_message
          (.tool ("Error: " ++ e) tool_call.function.name tool_call.id)
        (results ++ [none], st))
    ([], st)

/-- `LinkedAIGradioApp._initialize_agent` (gradio.py lines 63–77), observed
through the conversation history of the agent it builds: when environment
validation passes it constructs a fresh `ChatAgent`, whose
`chat_history = ChatHistory()` holds exactly the default single system
message; on failure the caught exception leaves `self.agent = None`. -/
def initialize_agent (envOk : Bool) : Option (List Msg) :=
  if envOk then some ChatHistory.init else none

/-- `LinkedAIGradioApp.reset_conversation` (gradio.py lines 131–148): when
an agent exists it is re-initialized from scratch; otherwise nothing
changes.  The pair is (conversation history of the agent afterwards, the
status text returned). -/
def reset_conversation (envOk : Bool) (agent : Option (List Msg)) :
    Option (List Msg) × String :=
  match agent with
  | some _ =>
    (initialize_agent envOk,
      "CONVERSATION RESET - You can ask me anything about finding jobs or optimizing your resume.")
  | none => (none, "Unable to reset - agent not available.")

/-- The three tool names handled by the dispatch in `ChatAgent.chat`. -/
def recognizedToolName (s : String) : Bool :=
  s == "search_jobs" || s == "match_job_to_resume" ||
    s == "suggest_resume_tweaks"

/-- The outcome of the collaborator call (serialized on success) that the
dispatch in `chat` performs for a tool invocation: `none` when argument
validation fails before any collaborator is reached, or when the tool
name is unrecognized. -/
def collaboratorOutcome (env : Env) (tc : ToolCall) :
    Option (Except String String) :=
  if tc.function.name = "search_jobs" then
    (QueryArgs.validate tc.function.arguments).toOption.map
      (fun qa => (env.queryVectorstore qa).map SearchResults.model_dump_json)
  else if tc.function.name = "match_job_to_resume" then
    (ResumeMatchArgs.validate tc.function.arguments).toOption.map
      (fun ma => (env.runResumeMatch ma).map ResumeMatchResult.model_dump_json)
  else if tc.function.name = "suggest_resume_tweaks" then
    (ResumeTweakArgs.validate tc.function.arguments).toOption.map
      (fun ta => (env.runResumeTweak ta).map ResumeTweakResult.model_dump_json)
  else none

/-! ### Concrete fixtures used to instantiate the theorems -/

/-- An environment whose model never requests a tool and whose
collaborators all raise. -/
def envStub : Env :=
  { modelWithTools := fun _ => { content := "", tool_calls := [] }
    modelNoTools := fun _ => ""
    queryVectorstore := fun _ => Except.error "backend unavailable"
    runResumeMatch := fun _ => Except.error "backend unavailable"
    runResumeTweak := fun _ => Except.error "backend unavailable" }

/-- A tool invocation request whose name is none of the three registered
tools. -/
def unknownToolCall : ToolCall :=
  { id := "call_1"
    function := { name := "fetch_salary_data", arguments := some {} } }

/-- A turn state whose last assistant message requested exactly the one
unknown tool call. -/
def stC1 : ChatState :=
  { history := ChatHistory.init ++ [Msg.user "what is the salary",
      Msg.assistant "" (some [unknownToolCall])]
    last_search_results := none
    tool_results := []
    trace := [] }

/-- A sample job posting. -/
def sampleJob : JobCard :=
  { title := "Software Engineer"
    company := "Tech Corp"
    location := "San Francisco, CA"
    description := "We are looking for a software engineer"
    link := "https://www.linkedin.com/jobs/view/cool-job-123456" }

/-- A previous retrieval result held in Session State. -/
def priorSearchResults : SearchResults := { jobs := [sampleJob] }

/-- An environment whose resume-match collaborator would succeed. -/
def envMatchOk : Env :=
  { modelWithTools := fun _ => { content := "", tool_calls := [] }
    modelNoTools := fun _ => ""
    queryVectorstore := fun _ => Except.error "unused"
    runResumeMatch := fun _ =>
      Except.ok { best_match_id := 1, reasoning := "Good match" }
    runResumeTweak := fun _ => Except.error "unused" }

/-- A `match_job_to_resume` invocation whose argument payload omits the
`jobs` field (the model sent `{}` as arguments). -/
def matchCallNoJobs : ToolCall :=
  { id := "call_7"
    function := { name := "match_job_to_resume", arguments := some {} } }

/-- A turn state holding a most recent retrieval result. -/
def stC3 : ChatState :=
  { history := []
    last_search_results := some priorSearchResults
    tool_results := []
    trace := [] }

/-- A chroma query response carrying two retrieved postings for the single
query embedding. -/
def chromaTwoHits : ChromaQueryResult :=
  { documents := [["Desc one", "Desc two"]]
    metadatas := [[
      { title := "Job One", link := "link-one", location := "Location One",
        company := "Company One" },
      { title := "Job Two", link := "link-two", location := "Location Two",
        company := "Company Two" }]] }

/-- A `search_jobs` invocation with schema-valid arguments. -/
def searchFailCall : ToolCall :=
  { id := "call_a"
    function :=
      { name := "search_jobs"
        arguments := some { query := some "python developer", n_results := some 5 } } }

/-- A `suggest_resume_tweaks` invocation with schema-valid arguments. -/
def tweakOkCall : ToolCall :=
  { id := "call_b"
    function :=
      { name := "suggest_resume_tweaks"
        arguments := some { job_description := some "Python role" } } }

/-- An environment whose retrieval collaborator raises and whose resume
tweak collaborator succeeds. -/
def envC5 : Env :=
  { modelWithTools := fun _ => { content := "", tool_calls := [] }
    modelNoTools := fun _ => ""
    queryVectorstore := fun _ => Except.error "chroma connection refused"
    runResumeMatch := fun _ => Except.error "unused"
    runResumeTweak := fun _ =>
      Except.ok { suggestions := "Add more Python experience" } }

/-- A fresh turn state with empty history and no session results. -/
def stEmpty : ChatState :=
  { history := [], last_search_results := none, tool_results := []
    trace := [] }

/-- An environment whose model requests a tool on every reply. -/
def envAlways : Env :=
  { modelWithTools := fun _ =>
      { content := ""
        tool_calls :=
          [{ id := "call_loop", function := { name := "keep_going", arguments := some {} } }] }
    modelNoTools := fun _ => "Here is a summary."
    queryVectorstore := fun _ => Except.error "unused"
    runResumeMatch := fun _ => Except.error "unused"
    runResumeTweak := fun _ => Except.error "unused" }

/-! ### Helper lemmas -/

/-- The defaulting guard never fires: validated arguments pass through. -/
@[simp] lemma resolveJobsDefault_eq (ls : Option SearchResults)
    (a : ResumeMatchArgs) : resolveJobsDefault ls a = some a := by
  simp [resolveJobsDefault, SearchResults.pyTruthy]

/-- A list all of whose elements falsify `p` filters to the empty list. -/
lemma filter_eq_nil_of_all_false {α : Type} {p : α → Bool} :
    ∀ (l : List α), (∀ a ∈ l, p a = false) → l.filter p = []
  | [], _ => rfl
  | a :: t, h => by
    have ha : p a = false := h a (by simp)
    have ht := filter_eq_nil_of_all_false t (fun b hb => h b (by simp [hb]))
    simp [List.filter_cons, ha, ht]

/-- An element occurs zero times in a list all of whose elements falsify a
predicate it satisfies. -/
lemma count_eq_zero_of_all_false {α : Type} [DecidableEq α] {p : α → Bool}
    {a : α} (hpa : p a = true) :
    ∀ (l : List α), (∀ b ∈ l, p b = false) → l.count a = 0 := by
  intro l hl
  rw [List.count_eq_zero]
  intro hmem
  have h2 := hl a hmem
  rw [hpa] at h2
  exact absurd h2 (by decide)

lemma take_len_append {α : Type} :
    ∀ (l1 l2 : List α), (l1 ++ l2).take l1.length = l1
  | [], _ => by simp
  | a :: t, l2 => by simp [take_len_append t l2]

lemma drop_len_append {α : Type} :
    ∀ (l1 l2 : List α), (l1 ++ l2).drop l1.length = l2
  | [], _ => by simp
  | a :: t, l2 => by simp [drop_len_append t l2]

/-- Shape of one tool-call dispatch step: the previous trace is preserved
as a prefix and only yield events are added after it. -/
lemma processToolCall_trace_spec (env : Env) (st : ChatState)
    (tc : ToolCall) :
    (processToolCall env st tc).trace.take st.trace.length = st.trace ∧
      ∀ e ∈ (processToolCall env st tc).trace.drop st.trace.length,
        e.isModelCall = false := by
  simp only [processToolCall]
  by_cases h1 : tc.function.name = "search_jobs"
  · rw [if_pos h1]
    repeat' split
    all_goals
      refine ⟨?_, ?_⟩ <;>
        simp [ChatState.pyYield, ChatState.append_message,
          ChatState.setToolResult, List.append_assoc, take_len_append,
          drop_len_append, Event.isModelCall]
  rw [if_neg h1]
  by_cases h2 : tc.function.name = "match_job_to_resume"
  · rw [if_pos h2]
    repeat' split
    all_goals
      refine ⟨?_, ?_⟩ <;>
        simp [ChatState.pyYield, ChatState.append_message,
          ChatState.setToolResult, List.append_assoc, take_len_append,
          drop_len_append, Event.isModelCall]
  rw [if_neg h2]
  by_cases h3 : tc.function.name = "suggest_resume_tweaks"
  · rw [if_pos h3]
    repeat' split
    all_goals
      refine ⟨?_, ?_⟩ <;>
        simp [ChatState.pyYield, ChatState.append_message,
          ChatState.setToolResult, List.append_assoc, take_len_append,
          drop_len_append, Event.isModelCall]
  rw [if_neg h3]
  exact ⟨by simp, by simp⟩

/-- Shape of one tool-call dispatch step, in appended form. -/
lemma processToolCall_shape (env : Env) (st : ChatState) (tc : ToolCall) :
    ∃ ys, (processToolCall env st tc).trace = st.trace ++ ys
      ∧ ∀ e ∈ ys, e.isModelCall = false := by
  obtain ⟨h1, h2⟩ := processToolCall_trace_spec env st tc
  refine ⟨(processToolCall env st tc).trace.drop st.trace.length, ?_, h2⟩
  conv_lhs => rw [← List.take_append_drop st.trace.length
    (processToolCall env st tc).trace]
  rw [h1]

lemma processToolCall_count (env : Env) (st : ChatState) (tc : ToolCall)
    (ev : Event) (hev : ev.isModelCall = true) :
    (processToolCall env st tc).trace.count ev = st.trace.count ev := by
  obtain ⟨ys, ht, hys⟩ := processToolCall_shape env st tc
  rw [ht, List.count_append, count_eq_zero_of_all_false hev ys hys]
  exact Nat.add_zero _

lemma processRound_count (env : Env) (tcs : List ToolCall)
    (st : ChatState) (ev : Event) (hev : ev.isModelCall = true) :
    (processRound env st tcs).trace.count ev = st.trace.count ev := by
  induction tcs generalizing st with
  | nil => rfl
  | cons tc rest ih =>
    show (processRound env (processToolCall env st tc) rest).trace.count ev = _
    rw [ih, processToolCall_count env st tc ev hev]

lemma processToolCall_filter (env : Env) (st : ChatState) (tc : ToolCall) :
    (processToolCall env st tc).trace.filter Event.isModelCall
      = st.trace.filter Event.isModelCall := by
  obtain ⟨ys, ht, hys⟩ := processToolCall_shape env st tc
  rw [ht, List.filter_append, filter_eq_nil_of_all_false ys hys,
    List.append_nil]

lemma processRound_filter (env : Env) (tcs : List ToolCall)
    (st : ChatState) :
    (processRound env st tcs).trace.filter Event.isModelCall
      = st.trace.filter Event.isModelCall := by
  induction tcs generalizing st with
  | nil => rfl
  | cons tc rest ih =>
    show (processRound env (processToolCall env st tc) rest).trace.filter _ = _
    rw [ih, processToolCall_filter]

lemma processToolCall_trace_append (env : Env) (st : ChatState)
    (tc : ToolCall) :
    ∃ tl, (processToolCall env st tc).trace = st.trace ++ tl := by
  obtain ⟨ys, ht, -⟩ := processToolCall_shape env st tc
  exact ⟨ys, ht⟩

lemma processRound_trace_append (env : Env) (tcs : List ToolCall)
    (st : ChatState) :
    ∃ tl, (processRound env st tcs).trace = st.trace ++ tl := by
  induction tcs generalizing st with
  | nil => exact ⟨[], by simp [processRound]⟩
  | cons tc rest ih =>
    obtain ⟨a, ha⟩ := processToolCall_trace_append env st tc
    obtain ⟨b, hb⟩ := ih (processToolCall env st tc)
    exact ⟨a ++ b, by
      show (processRound env (processToolCall env st tc) rest).trace = _
      rw [hb, ha, List.append_assoc]⟩

lemma chatLoop_trace_append (env : Env) (fuel : Nat) (st : ChatState) :
    ∃ tl, (chatLoop env fuel st).1.trace = st.trace ++ tl := by
  induction fuel generalizing st with
  | zero => exact ⟨[], by simp [chatLoop]⟩
  | succ fuel ih =>
    rw [chatLoop]
    split
    · split
      · refine ⟨[Event.modelCallWithTools,
          Event.yield (env.modelWithTools st.history).content], ?_⟩
        simp [ChatState.pyYield, ChatState.append_message,
          List.append_assoc]
      · refine ⟨[Event.modelCallWithTools], ?_⟩
        simp [ChatState.append_message]
    · obtain ⟨b, hb⟩ := processRound_trace_append env
        ((env.modelWithTools st.history).tool_calls) _
      obtain ⟨c, hc⟩ := ih _
      refine ⟨[Event.modelCallWithTools] ++ b ++ c, ?_⟩
      rw [hc, hb]
      simp [ChatState.append_message, List.append_assoc]

lemma chatLoop_count_withTools_le (env : Env) (fuel : Nat) (st : ChatState) :
    (chatLoop env fuel st).1.trace.count Event.modelCallWithTools
      ≤ st.trace.count Event.modelCallWithTools + fuel := by
  induction fuel generalizing st with
  | zero => simp [chatLoop]
  | succ fuel ih =>
    rw [chatLoop]
    split
    · split
      · simp [ChatState.pyYield, ChatState.append_message,
          List.count_append, List.count_cons]
        try omega
      · simp [ChatState.append_message, List.count_append, List.count_cons]
        try omega
    · refine le_trans (ih _) ?_
      rw [processRound_count env _ _ Event.modelCallWithTools rfl]
      simp [ChatState.append_message, List.count_append, List.count_cons]
      try omega

lemma chatLoop_count_noTools (env : Env) (fuel : Nat) (st : ChatState) :
    (chatLoop env fuel st).1.trace.count Event.modelCallNoTools
      = st.trace.count Event.modelCallNoTools := by
  induction fuel generalizing st with
  | zero => simp [chatLoop]
  | succ fuel ih =>
    rw [chatLoop]
    split
    · split
      · simp [ChatState.pyYield, ChatState.append_message,
          List.count_append, List.count_cons]
      · simp [ChatState.append_message, List.count_append, List.count_cons]
    · rw [ih _, processRound_count env _ _ Event.modelCallNoTools rfl]
      simp [ChatState.append_message, List.count_append, List.count_cons]

lemma chatFinalize_count_withTools (env : Env) (res : ChatState × Bool) :
    (chatFinalize env res).trace.count Event.modelCallWithTools
      = res.1.trace.count Event.modelCallWithTools := by
  rcases res with ⟨st, flag⟩
  cases flag
  · simp only [chatFinalize]
    split <;>
      simp [ChatState.pyYield, ChatState.append_message, List.count_append,
        List.count_cons]
  · rfl

lemma chatFinalize_count_noTools_le (env : Env) (res : ChatState × Bool) :
    (chatFinalize env res).trace.count Event.modelCallNoTools
      ≤ res.1.trace.count Event.modelCallNoTools + 1 := by
  rcases res with ⟨st, flag⟩
  cases flag
  · simp only [chatFinalize]
    split <;>
      simp [ChatState.pyYield, ChatState.append_message, List.count_append,
        List.count_cons]
  · exact Nat.le_succ _

lemma chatFinalize_filter_false (env : Env) (st : ChatState) :
    (chatFinalize env (st, false)).trace.filter Event.isModelCall
      = st.trace.filter Event.isModelCall ++ [Event.modelCallNoTools] := by
  simp only [chatFinalize]
  split <;>
    simp [ChatState.pyYield, ChatState.append_message, List.filter_append,
      Event.isModelCall]

lemma chatFinalize_trace_append (env : Env) (res : ChatState × Bool) :
    ∃ tl, (chatFinalize env res).trace = res.1.trace ++ tl := by
  rcases res with ⟨st, flag⟩
  cases flag
  · simp only [chatFinalize]
    split
    · refine ⟨[Event.yield "Finalizing response...\n", Event.modelCallNoTools,
        Event.yield (env.modelNoTools st.history)], ?_⟩
      simp [ChatState.pyYield, ChatState.append_message, List.append_assoc]
    · refine ⟨[Event.yield "Finalizing response...\n",
        Event.modelCallNoTools], ?_⟩
      simp [ChatState.pyYield, List.append_assoc]
  · exact ⟨[], by simp [chatFinalize]⟩

lemma chatLoop_always_tools (env : Env)
    (h : ∀ msgs, (env.modelWithTools msgs).tool_calls ≠ [])
    (fuel : Nat) (st : ChatState) :
    (chatLoop env fuel st).2 = false ∧
      (chatLoop env fuel st).1.trace.filter Event.isModelCall
        = st.trace.filter Event.isModelCall
          ++ List.replicate fuel Event.modelCallWithTools := by
  induction fuel generalizing st with
  | zero => simp [chatLoop]
  | succ fuel ih =>
    rw [chatLoop]
    split
    · next hempty =>
      exact absurd (List.isEmpty_iff.mp hempty) (h _)
    · refine ⟨(ih _).1, ?_⟩
      rw [(ih _).2, processRound_filter]
      simp [ChatState.append_message, List.filter_append,
        Event.isModelCall, List.replicate_succ, List.append_assoc]

lemma recognized_cases {s : String} (h : recognizedToolName s = true) :
    s = "search_jobs" ∨ s = "match_job_to_resume" ∨
      s = "suggest_resume_tweaks" := by
  simp only [recognizedToolName, Bool.or_eq_true, beq_iff_eq] at h
  tauto

/-- Each recognized tool invocation is closed out by exactly one tool
message keyed to its call identifier; when the collaborator call fails
the content is the error marker for its message. -/
lemma processToolCall_recognized (env : Env) (st : ChatState)
    (tc : ToolCall) (h : recognizedToolName tc.function.name = true) :
    ∃ c, (processToolCall env st tc).history
        = st.history ++ [Msg.tool c tc.function.name tc.id]
      ∧ ∀ e, collaboratorOutcome env tc = some (Except.error e) →
          c = "Error: " ++ e := by
  rcases recognized_cases h with h1 | h1 | h1
  · simp only [processToolCall]
    rw [if_pos h1]
    cases hv : QueryArgs.validate tc.function.arguments with
    | error e =>
      refine ⟨"Error: " ++ e, ?_, ?_⟩
      · simp [hv, ChatState.pyYield, ChatState.append_message]
      · intro e' he'
        simp only [collaboratorOutcome] at he'
        rw [if_pos h1] at he'
        simp [hv, Except.toOption] at he'
    | ok qa =>
      cases hq : env.queryVectorstore qa with
      | ok result =>
        refine ⟨result.model_dump_json, ?_, ?_⟩
        · simp [hv, hq, ChatState.pyYield, ChatState.append_message,
            ChatState.setToolResult]
        · intro e' he'
          simp only [collaboratorOutcome] at he'
          rw [if_pos h1] at he'
          simp [hv, hq, Except.toOption, Except.map] at he'
      | error e =>
        refine ⟨"Error: " ++ e, ?_, ?_⟩
        · simp [hv, hq, ChatState.pyYield, ChatState.append_message]
        · intro e' he'
          simp only [collaboratorOutcome] at he'
          rw [if_pos h1] at he'
          simp [hv, hq, Except.toOption, Except.map] at he'
          rw [he']
  · have hn1 : ¬ tc.function.name = "search_jobs" := by rw [h1]; decide
    simp only [processToolCall]
    rw [if_neg hn1, if_pos h1]
    cases hv : ResumeMatchArgs.validate tc.function.arguments with
    | error e =>
      refine ⟨"Error: " ++ e, ?_, ?_⟩
      · simp [hv, ChatState.pyYield, ChatState.append_message]
      · intro e' he'
        simp only [collaboratorOutcome] at he'
        rw [if_neg hn1, if_pos h1] at he'
        simp [hv, Except.toOption] at he'
    | ok ma =>
      cases hq : env.runResumeMatch ma with
      | ok result =>
        refine ⟨result.model_dump_json, ?_, ?_⟩
        · simp [hv, hq, ChatState.pyYield, ChatState.append_message,
            ChatState.setToolResult]
        · intro e' he'
          simp only [collaboratorOutcome] at he'
          rw [if_neg hn1, if_pos h1] at he'
          simp [hv, hq, Except.toOption, Except.map] at he'
      | error e =>
        refine ⟨"Error: " ++ e, ?_, ?_⟩
        · simp [hv, hq, ChatState.pyYield, ChatState.append_message]
        · intro e' he'
          simp only [collaboratorOutcome] at he'
          rw [if_neg hn1, if_pos h1] at he'
          simp [hv, hq, Except.toOption, Except.map] at he'
          rw [he']
  · have hn1 : ¬ tc.function.name = "search_jobs" := by rw [h1]; decide
    have hn2 : ¬ tc.function.name = "match_job_to_resume" := by
      rw [h1]; decide
    simp only [processToolCall]
    rw [if_neg hn1, if_neg hn2, if_pos h1]
    cases hv : ResumeTweakArgs.validate tc.function.arguments with
    | error e =>
      refine ⟨"Error: " ++ e, ?_, ?_⟩
      · simp [hv, ChatState.pyYield, ChatState.append_message]
      · intro e' he'
        simp only [collaboratorOutcome] at he'
        rw [if_neg hn1, if_neg hn2, if_pos h1] at he'
        simp [hv, Except.toOption] at he'
    | ok ta =>
      cases hq : env.runResumeTweak ta with
      | ok result =>
        refine ⟨result.model_dump_json, ?_, ?_⟩
        · simp [hv, hq, ChatState.pyYield, ChatState.append_message,
            ChatState.setToolResult]
        · intro e' he'
          simp only [collaboratorOutcome] at he'
          rw [if_neg hn1, if_neg hn2, if_pos h1] at he'
          simp [hv, hq, Except.toOption, Except.map] at he'
      | error e =>
        refine ⟨"Error: " ++ e, ?_, ?_⟩
        · simp [hv, hq, ChatState.pyYield, ChatState.append_message]
        · intro e' he'
          simp only [collaboratorOutcome] at he'
          rw [if_neg hn1, if_neg hn2, if_pos h1] at he'
          simp [hv, hq, Except.toOption, Except.map] at he'
          rw [he']

/-- A round whose invocation requests all carry recognized tool names
appends exactly one tool message per request, in order, keyed to the call
identifiers. -/
lemma processRound_recognized (env : Env) :
    ∀ (tcs : List ToolCall) (st : ChatState),
      (∀ tc ∈ tcs, recognizedToolName tc.function.name = true) →
      ∃ ms, (processRound env st tcs).history = st.history ++ ms ∧
        List.Forall₂ (fun (msg : Msg) (tc : ToolCall) =>
          ∃ c, msg = Msg.tool c tc.function.name tc.id) ms tcs
  | [], st, _ => ⟨[], by simp [processRound], List.Forall₂.nil⟩
  | tc :: rest, st, h => by
    obtain ⟨c, hc, -⟩ :=
      processToolCall_recognized env st tc (h tc (by simp))
    obtain ⟨ms, hms, hfa⟩ :=
      processRound_recognized env rest (processToolCall env st tc)
        (fun t ht => h t (by simp [ht]))
    refine ⟨Msg.tool c tc.function.name tc.id :: ms, ?_,
      List.Forall₂.cons ⟨c, rfl⟩ hfa⟩
    show (processRound env (processToolCall env st tc) rest).history = _
    rw [hms, hc, List.append_assoc]
    rfl

/-! ### Claim theorems -/

/-- C1. The closure invariant fails on the code: when the assistant
message requests a tool whose name is none of the three handled by the
dispatch in `ChatAgent.chat` (which has no `else` branch), the round
appends zero tool messages for one invocation request, leaving the call
identifier dangling in history. -/
theorem chat_round_closure_unknown_tool_dangles :
    (processRound envStub stC1 [unknownToolCall]).history = stC1.history ∧
    ((processRound envStub stC1 [unknownToolCall]).history.filter
        Msg.isTool).length
      = (stC1.history.filter Msg.isTool).length ∧
    [unknownToolCall].length = 1 ∧
    unknownToolCall.function.name = "fetch_salary_data" :=
  ⟨rfl, rfl, rfl, rfl⟩

/-- C2. Bounded termination of a chat turn: at most `max_iterations`
model round-trips with tool schemas offered, at most one forced no-tools
call, and — when the model requests a tool on every reply — the model
calls of the turn are exactly `max_iterations` with-tools calls followed
by the single forced no-tools finalization call (so with
`max_iterations = 3` the forced call is the 4th model call). -/
theorem chat_bounded_termination (env : Env) (m : Nat) (h0 : List Msg)
    (u : String) :
    (chat env m h0 u).trace.count Event.modelCallWithTools ≤ m ∧
    (chat env m h0 u).trace.count Event.modelCallNoTools ≤ 1 ∧
    ((∀ msgs, (env.modelWithTools msgs).tool_calls ≠ []) →
      (chat env m h0 u).trace.filter Event.isModelCall
        = List.replicate m Event.modelCallWithTools
          ++ [Event.modelCallNoTools]) := by
  have hst0 : ((initialState h0 u).pyYield
      "Let me help you with that...\n\n").trace
      = [Event.yield "Let me help you with that...\n\n"] := by
    simp [initialState, ChatState.pyYield]
  refine ⟨?_, ?_, ?_⟩
  · rw [chat, chatFinalize_count_withTools]
    have h1 := chatLoop_count_withTools_le env m
      ((initialState h0 u).pyYield "Let me help you with that...\n\n")
    rw [hst0] at h1
    simpa using h1
  · rw [chat]
    refine le_trans (chatFinalize_count_noTools_le env _) ?_
    rw [chatLoop_count_noTools, hst0]
    simp
  · intro hAll
    have h := chatLoop_always_tools env hAll m
      ((initialState h0 u).pyYield "Let me help you with that...\n\n")
    cases hcl : chatLoop env m
        ((initialState h0 u).pyYield "Let me help you with that...\n\n") with
    | mk stL flag =>
      rw [hcl] at h
      obtain ⟨hflag, hfil⟩ := h
      simp only at hflag hfil
      subst hflag
      rw [chat, hcl, chatFinalize_filter_false, hfil, hst0]
      simp [Event.isModelCall]

/-- Witness for C2 at a concrete always-tool-requesting model with
`max_iterations = 3`. -/
theorem chat_bounded_termination_witness :
    (chat envAlways 3 ChatHistory.init "find me jobs").trace.count
        Event.modelCallWithTools ≤ 3 ∧
    (chat envAlways 3 ChatHistory.init "find me jobs").trace.count
        Event.modelCallNoTools ≤ 1 ∧
    (chat envAlways 3 ChatHistory.init "find me jobs").trace.filter
        Event.isModelCall
      = List.replicate 3 Event.modelCallWithTools
        ++ [Event.modelCallNoTools] := by
  have h := chat_bounded_termination envAlways 3 ChatHistory.init
    "find me jobs"
  exact ⟨h.1, h.2.1, h.2.2 (fun msgs => by simp [envAlways])⟩

/-- C3. Implicit jobs defaulting fails on the code: invoking
`match_job_to_resume` with a payload that omits `jobs` while Session State
holds a prior search result ends in a pydantic `ValidationError`
(`jobs` is a required field of `ResumeMatchArgs`), recorded as an error
tool message — the prior result is never substituted and the collaborator
(which would have succeeded) is never called. -/
theorem match_jobs_defaulting_fails_validation :
    (processToolCall envMatchOk stC3 matchCallNoJobs).history
      = [Msg.tool ("Error: " ++ validationErrorText "ResumeMatchArgs" "jobs")
          "match_job_to_resume" "call_7"] ∧
    stC3.last_search_results = some priorSearchResults ∧
    envMatchOk.runResumeMatch { jobs := priorSearchResults }
      = Except.ok { best_match_id := 1, reasoning := "Good match" } :=
  ⟨rfl, rfl, rfl⟩

/-- C4. `query_vectorstore` deserializes only the first returned posting:
its loop ranges over the length of the outer per-query list (which is 1),
not over the `n` hits inside it, so a retrieval that returned two
postings yields a `SearchResults` with a single job. -/
theorem query_vectorstore_returns_single_posting :
    query_vectorstore chromaTwoHits
      = some { jobs := [{ title := "Job One", company := "Company One", location := "Location One", description := "Desc one", link := "link-one" }] } ∧
    ((chromaTwoHits.documents.get? 0).getD []).length = 2 :=
  ⟨rfl, rfl⟩

/-- C5. Per-tool failure isolation: in a round of recognized tool
invocations whose first collaborator call raises, the failing invocation
is recorded as an error-content tool message keyed to its call
identifier, the exception does not propagate (the round is a total
function on states), and every remaining invocation is still executed and
recorded as a tool message keyed to its own identifier, in order. -/
theorem chat_tool_failure_isolation (env : Env) (st : ChatState)
    (tc : ToolCall) (rest : List ToolCall) (e : String)
    (h1 : recognizedToolName tc.function.name = true)
    (h2 : ∀ t ∈ rest, recognizedToolName t.function.name = true)
    (hfail : collaboratorOutcome env tc = some (Except.error e)) :
    ∃ ms, (processRound env st (tc :: rest)).history
        = st.history
          ++ Msg.tool ("Error: " ++ e) tc.function.name tc.id :: ms
      ∧ List.Forall₂ (fun (msg : Msg) (t : ToolCall) =>
          ∃ c, msg = Msg.tool c t.function.name t.id) ms rest := by
  obtain ⟨c, hc, hcerr⟩ := processToolCall_recognized env st tc h1
  obtain ⟨ms, hms, hfa⟩ := processRound_recognized env rest
    (processToolCall env st tc) h2
  refine ⟨ms, ?_, hfa⟩
  show (processRound env (processToolCall env st tc) rest).history = _
  rw [hms, hc, hcerr e hfail, List.append_assoc]
  rfl

/-- Witness for C5: a round of two invocations where the retrieval
collaborator raises for the first and the second still completes. -/
theorem chat_tool_failure_isolation_witness :
    ∃ ms, (processRound envC5 stEmpty [searchFailCall, tweakOkCall]).history
        = stEmpty.history
          ++ Msg.tool ("Error: " ++ "chroma connection refused")
              searchFailCall.function.name searchFailCall.id :: ms
      ∧ List.Forall₂ (fun (msg : Msg) (t : ToolCall) =>
          ∃ c, msg = Msg.tool c t.function.name t.id) ms [tweakOkCall] :=
  chat_tool_failure_isolation envC5 stEmpty searchFailCall [tweakOkCall]
    "chroma connection refused" (by decide) (by decide) rfl

/-- C6. A `match_job_to_resume` invocation with no `jobs` argument and no
prior search result fails at the tool level: an error tool message keyed
to the call identifier is recorded (the `ValidationError` raised before
the defaulting branch is caught by the per-call handler), the turn
continues (the remaining recognized invocations of the round are all
still executed and recorded), and no exception escapes — the round is a
total function on states. -/
theorem chat_missing_jobs_tool_level_failure (env : Env) (st : ChatState)
    (cid : String) (p : Payload) (rest : List ToolCall)
    (hp : p.jobs = none)
    (hnoprior : st.last_search_results = none)
    (h2 : ∀ t ∈ rest, recognizedToolName t.function.name = true) :
    ∃ ms, (processRound env st
        (({ id := cid, function := { name := "match_job_to_resume", arguments := some p } } : ToolCall) :: rest)).history
        = st.history
          ++ Msg.tool
              ("Error: " ++ validationErrorText "ResumeMatchArgs" "jobs")
              "match_job_to_resume" cid :: ms
      ∧ List.Forall₂ (fun (msg : Msg) (t : ToolCall) =>
          ∃ c, msg = Msg.tool c t.function.name t.id) ms rest := by
  have hn1 : ¬ (("match_job_to_resume" : String) = "search_jobs") := by
    decide
  have hstep : (processToolCall env st
      ({ id := cid, function := { name := "match_job_to_resume", arguments := some p } } : ToolCall)).history
      = st.history
        ++ [Msg.tool ("Error: " ++ validationErrorText "ResumeMatchArgs" "jobs")
            "match_job_to_resume" cid] := by
    simp [processToolCall, hn1, ResumeMatchArgs.validate, hp,
      ChatState.pyYield, ChatState.append_message]
  obtain ⟨ms, hms, hfa⟩ := processRound_recognized env rest
    (processToolCall env st ({ id := cid, function := { name := "match_job_to_resume", arguments := some p } } : ToolCall)) h2
  refine ⟨ms, ?_, hfa⟩
  show (processRound env (processToolCall env st _) rest).history = _
  rw [hms, hstep, List.append_assoc]
  rfl

/-- Witness for C6: empty Session State, a `{}` payload, and one further
invocation in the same round. -/
theorem chat_missing_jobs_tool_level_failure_witness :
    ∃ ms, (processRound envStub stEmpty
        (({ id := "call_9", function := { name := "match_job_to_resume", arguments := some {} } } : ToolCall) :: [tweakOkCall])).history
        = stEmpty.history
          ++ Msg.tool
              ("Error: " ++ validationErrorText "ResumeMatchArgs" "jobs")
              "match_job_to_resume" "call_9" :: ms
      ∧ List.Forall₂ (fun (msg : Msg) (t : ToolCall) =>
          ∃ c, msg = Msg.tool c t.function.name t.id) ms [tweakOkCall] :=
  chat_missing_jobs_tool_level_failure envStub stEmpty "call_9" {}
    [tweakOkCall] rfl rfl (by decide)

/-- C7. Resume-match null fallback: when the structured-output backend
returns a null/unparseable parsed result, `run_resume_match` returns
exactly `(best_match_id = 0, reasoning = "")` and raises nothing (the
result is an `ok`, never an `error`). -/
theorem run_resume_match_null_fallback (args : ResumeMatchArgs) :
    run_resume_match (Except.ok none) args
      = Except.ok { best_match_id := 0, reasoning := "" } := rfl

/-- C8. `run_resume_tweak` fails on every schema-valid invocation: the
prompt construction accesses `resume_tweak_args.job.description`, but the
argument model declares only `job_description`, so the attribute access
raises `AttributeError` before the collaborator is even called — the tool
never produces a suggestions-text result.  The input is the one the
repository's own test `test_run_resume_tweak` uses (it expects
`suggestions = "Test response"`). -/
theorem run_resume_tweak_attribute_error :
    run_resume_tweak (Except.ok (some "Test response"))
        { job_description := "Python developer role" }
      = Except.error
          "AttributeError: ResumeTweakArgs object has no attribute job" :=
  rfl

/-- C9. Reset idempotence: for every conversation history, resetting
(with a valid environment) leaves the agent holding exactly one message,
tagged as the system instruction, and resetting again yields the
identical single-system-message history. -/
theorem reset_conversation_single_system_idempotent (h : List Msg) :
    (reset_conversation true (some h)).1
        = some [Msg.system CHAT_AGENT_SYSTEM_PROMPT] ∧
    ((reset_conversation true (some h)).1.getD []).length = 1 ∧
    (reset_conversation true ((reset_conversation true (some h)).1)).1
        = (reset_conversation true (some h)).1 :=
  ⟨rfl, rfl, rfl⟩

/-- C10. Every chat turn yields at least one fragment, the first fragment
is exactly the fixed progress marker, and it is emitted before any model
round-trip (every model-call event in the trace occurs at a strictly
positive index). -/
theorem chat_first_fragment_progress_marker (env : Env) (m : Nat)
    (h0 : List Msg) (u : String) :
    (chat env m h0 u).fragments.head?
        = some "Let me help you with that...\n\n" ∧
    ∀ i ev, (chat env m h0 u).trace.get? i = some ev →
      ev.isModelCall = true → 0 < i := by
  have hst0 : ((initialState h0 u).pyYield
      "Let me help you with that...\n\n").trace
      = [Event.yield "Let me help you with that...\n\n"] := by
    simp [initialState, ChatState.pyYield]
  obtain ⟨a, ha⟩ := chatLoop_trace_append env m
    ((initialState h0 u).pyYield "Let me help you with that...\n\n")
  obtain ⟨b, hb⟩ := chatFinalize_trace_append env
    (chatLoop env m
      ((initialState h0 u).pyYield "Let me help you with that...\n\n"))
  have htr : (chat env m h0 u).trace
      = Event.yield "Let me help you with that...\n\n" :: (a ++ b) := by
    rw [chat, hb, ha, hst0]
    simp
  constructor
  · rw [ChatState.fragments, htr]
    simp
  · intro i ev hget hmc
    rw [htr] at hget
    cases i with
    | zero =>
      simp at hget
      rw [← hget] at hmc
      simp [Event.isModelCall] at hmc
    | succ n => exact Nat.succ_pos n

end LinkedAI
